import Mathlib

/-!
# Verification of the job-bot extraction-and-processing pipeline

Shallow embedding of the orchestration core of the `job-bot` repository:

* `services/job_processor_service.py` — `extract_job_data`,
  `_should_attempt_fallback`, `_playwright_path`;
* `services/playwright_scraper_service.py` — `detect_unavailable_in_text`,
  the tail of `playwright_scrape_job`;
* `services/duplicate_checker_service.py` — `check_if_job_exists`;
* `app/tasks.py` — `process_job_pipeline` and the Celery wrapper
  `process_job_task`.

External collaborators (the crawl4ai engine, browser navigation, the LLM
calls, PDF rendering, uploads, Notion writes) are modelled as oracle values
recorded in an environment structure: each field holds the outcome the
collaborator would produce when invoked.  The embedded orchestrators are
deterministic functions of that environment and additionally return the
trace of collaborator invocations and `update_state` calls they perform, so
that "collaborator X is never called" and "progress is monotone" are
statements about the trace.
-/

set_option maxHeartbeats 1000000
set_option maxRecDepth 100000

namespace JobBot

/-- A Python exception that is not one of the two business-outcome classes:
its runtime type name (`type(e).__name__`) and its message (`str(e)`). -/
structure PyError where
  typeName : String
  message : String
deriving DecidableEq, Repr

instance {ε α : Type} [DecidableEq ε] [DecidableEq α] :
    DecidableEq (Except ε α) := fun a b =>
  match a, b with
  | .error e, .error e' =>
    if h : e = e' then .isTrue (by rw [h]) else .isFalse (by simp [h])
  | .ok v, .ok v' =>
    if h : v = v' then .isTrue (by rw [h]) else .isFalse (by simp [h])
  | .error _, .ok _ => .isFalse (by simp)
  | .ok _, .error _ => .isFalse (by simp)

/-- `pat` is a leading segment of the character list. -/
def startsWithChars : List Char → List Char → Bool
  | [], _ => true
  | _ :: _, [] => false
  | p :: ps, c :: cs => p == c && startsWithChars ps cs

/-- `pat` occurs as a contiguous segment of the character list. -/
def hasSubChars (pat : List Char) : List Char → Bool
  | [] => pat.isEmpty
  | c :: cs => startsWithChars pat (c :: cs) || hasSubChars pat cs

/-- Python's substring operator `pat in s` (contiguous occurrence;
`"" in s` is `True`), computed on the underlying character lists. -/
def strContains (s pat : String) : Bool :=
  hasSubChars pat.data s.data

/-- Python's `str.lower()` (ASCII case folding, which is all the source's
patterns and pages need), computed on the underlying character list. -/
def strLower (s : String) : String :=
  ⟨s.data.map Char.toLower⟩

/-- Python's `str.strip()`: drop whitespace from both ends. -/
def strStrip (s : String) : String :=
  ⟨((s.data.dropWhile Char.isWhitespace).reverse.dropWhile
      Char.isWhitespace).reverse⟩

/-- Python's slice `s[:n]`. -/
def strTake (s : String) (n : Nat) : String :=
  ⟨s.data.take n⟩

/-- The exception raised by `crawl4ai_extract` / propagated by
`extract_job_data`: the two business-outcome classes
(`JobUnavailableError`, `VisaRestrictedError` in
`services/crawl4ai_service.py`) or a plain technical exception. -/
inductive ExtractExc where
  | jobUnavailable (reason : String)
  | visaRestricted (reason : String)
  | exc (e : PyError)
deriving DecidableEq, Repr

/-- A normalized job record (the dict produced by either extraction path). -/
structure Job where
  url : String
  job_title : String
  company_name : String
  job_description : String
  location : Option String := none
  work_mode : Option String := none
  visa_warning : Option String := none
  extraction_method : Option String := none
deriving DecidableEq, Repr

/-- Trace events: collaborator invocations and `update_state` calls. -/
inductive Event where
  | callFast
  | callFallback
  | callScrape
  | callNormalize
  | callCheckDuplicate
  | callEvaluate
  | callTailorResume
  | callCompileResumePdf
  | callUploadResumePdf
  | callTailorCoverLetter
  | callCompileCoverLetterPdf
  | callUploadCoverLetterPdf
  | callSaveNotion
  | update (stage : String) (progress : Nat)
deriving DecidableEq, Repr

/-! ## `services/playwright_scraper_service.py` -/

/-- `unavailable_patterns` of `detect_unavailable_in_text` (verbatim). -/
def unavailable_patterns : List (String × String) :=
  [("position has been filled", "Position already filled"),
   ("this job is no longer available", "Job posting closed"),
   ("posting has expired", "Posting expired"),
   ("job posting is no longer active", "Job no longer active"),
   ("position is no longer open", "Position closed"),
   ("this position has been closed", "Position closed"),
   ("sorry, this job is no longer accepting applications",
    "No longer accepting applications"),
   ("this opportunity is no longer available", "Opportunity closed"),
   ("error 404", "Page not found (404)"),
   ("http 404", "Page not found (404)"),
   ("404 not found", "Page not found (404)"),
   ("404 error", "Page not found (404)")]

/-- `job_indicators` of `detect_unavailable_in_text` (verbatim). -/
def job_indicators : List String :=
  ["responsibilities", "requirements", "qualifications", "about the role",
   "what you'll do", "job description", "apply now", "skills", "experience"]

/-- The pattern loop of `detect_unavailable_in_text`: first pattern found in
the lowered text or title wins; `404` patterns additionally require the
pattern inside the first 500 characters of the lowered text, or a total text
length below 500, and otherwise `continue` to the next pattern. -/
def detectLoop (text_lower title_lower : String) (textLen : Nat) :
    List (String × String) → Option String
  | [] => none
  | (pat, reason) :: rest =>
    if strContains text_lower pat || strContains title_lower pat then
      if strContains pat "404" then
        if strContains (strTake text_lower 500) pat then some reason
        else if textLen < 500 then some reason
        else detectLoop text_lower title_lower textLen rest
      else some reason
    else detectLoop text_lower title_lower textLen rest

/-- `detect_unavailable_in_text(text, title)` — returns
`(is_unavailable, reason)`. -/
def detect_unavailable_in_text (text title : String) : Bool × Option String :=
  if text = "" || (strStrip text).length < 100 then
    (true, some "Page content too short or empty")
  else
    let text_lower := strLower text
    let title_lower := strLower title
    match detectLoop text_lower title_lower text.length unavailable_patterns with
    | some reason => (true, some reason)
    | none =>
      let has_job_content := job_indicators.any (fun i => strContains text_lower i)
      if !has_job_content && text.length < 800 then
        (true, some "No job description found - possibly removed or expired")
      else (false, none)

/-- Raw page content produced by a successful browser navigation
(the `text`/`title`/`html` extracted from the page). -/
structure ScrapedPage where
  text : String
  title : String
  html : String := ""
deriving DecidableEq, Repr

/-- Oracle for the browser-navigation part of `playwright_scrape_job`
(everything up to and including the HTTP-status check and content
extraction, retries included): either a page was obtained, the server
answered 404 or 410, or the attempts ended in some exception. -/
inductive NavOutcome where
  | ok (page : ScrapedPage)
  | http404
  | http410
  | err (e : PyError)
deriving DecidableEq, Repr

/-- Exception surface of `playwright_scrape_job`: its module-local
`JobUnavailableError` or a plain exception. -/
inductive ScrapeExc where
  | playwrightUnavailable (reason : String)
  | exc (e : PyError)
deriving DecidableEq, Repr

/-- Tail of `playwright_scrape_job`: a 404/410 status raises the scraper's
`JobUnavailableError` at once; on an obtained page,
`detect_unavailable_in_text` runs on the raw `text`/`title` and raises
`JobUnavailableError(reason)` before the page dict is returned; exhausted
retries raise a plain exception. -/
def playwright_scrape_job (nav : NavOutcome) : Except ScrapeExc ScrapedPage :=
  match nav with
  | .http404 => .error (.playwrightUnavailable "HTTP 404 - Page not found")
  | .http410 => .error (.playwrightUnavailable "HTTP 410 - Page gone")
  | .err e => .error (.exc e)
  | .ok page =>
    match detect_unavailable_in_text page.text page.title with
    | (true, reason) => .error (.playwrightUnavailable (reason.getD ""))
    | (false, _) => .ok page

/-! ## `services/job_processor_service.py` -/

/-- `fallback_patterns` of `_should_attempt_fallback` (verbatim). -/
def fallback_patterns : List String :=
  ["timeout", "timed out", "connection", "network", "incomplete extraction",
   "missing required fields", "no content extracted", "empty",
   "failed on navigating"]

/-- `retriable_errors` of `_should_attempt_fallback` (verbatim). -/
def retriable_errors : List String :=
  ["TimeoutError", "NetworkError", "ConnectionError", "RuntimeError"]

/-- `_should_attempt_fallback(error)`: the lowered message contains one of
the `fallback_patterns` substrings, or the error's type name is one of the
`retriable_errors`. -/
def should_attempt_fallback (error : PyError) : Bool :=
  fallback_patterns.any (fun pat => strContains (strLower error.message) pat)
    || retriable_errors.contains error.typeName

/-- Oracle for the fallback path `_playwright_path`: the navigation outcome
and the outcome the LLM normalization call (`llm_normalize_job_data`) would
produce on the scraped page. -/
structure SlowEnv where
  nav : NavOutcome
  normalize : Except PyError Job
deriving DecidableEq, Repr

/-- `_playwright_path(url)`: scrape, convert the scraper's
`JobUnavailableError` into the pipeline's `JobUnavailableError`, then
normalize with the LLM and stamp `extraction_method = "playwright+llm"`.
`JobUnavailableError` is re-raised unwrapped; any other exception is wrapped
as `Exception("Playwright extraction failed: ...")`. -/
def playwright_path (env : SlowEnv) : List Event × Except ExtractExc Job :=
  match playwright_scrape_job env.nav with
  | .error (.playwrightUnavailable r) =>
    ([.callFallback, .callScrape], .error (.jobUnavailable r))
  | .error (.exc e) =>
    ([.callFallback, .callScrape],
     .error (.exc ⟨"Exception", "Playwright extraction failed: " ++ e.message⟩))
  | .ok _page =>
    match env.normalize with
    | .error e =>
      ([.callFallback, .callScrape, .callNormalize],
       .error (.exc ⟨"Exception", "Playwright extraction failed: " ++ e.message⟩))
    | .ok job =>
      ([.callFallback, .callScrape, .callNormalize],
       .ok { job with extraction_method := some "playwright+llm" })

/-- Oracle for `extract_job_data`: what `crawl4ai_extract(url)` would return
or raise, and the fallback path's oracle. -/
structure ExtractEnv where
  fast : Except ExtractExc Job
  slow : SlowEnv
deriving DecidableEq, Repr

/-- `extract_job_data(url, force_playwright)`.  With `force_playwright` the
fallback runs directly.  Otherwise the fast path runs; an incomplete record
(falsy `job_title` or `job_description`) raises
`Exception("Incomplete extraction - missing critical fields")` inside the
same `try`;  `JobUnavailableError`/`VisaRestrictedError` are re-raised with
no fallback; any other exception falls back exactly when
`_should_attempt_fallback` holds, and is re-raised otherwise. -/
def extract_job_data (env : ExtractEnv) (force_playwright : Bool) :
    List Event × Except ExtractExc Job :=
  if force_playwright then playwright_path env.slow
  else
    match env.fast with
    | .error (.jobUnavailable r) => ([.callFast], .error (.jobUnavailable r))
    | .error (.visaRestricted r) => ([.callFast], .error (.visaRestricted r))
    | .error (.exc e) =>
      if should_attempt_fallback e then
        let (tr, res) := playwright_path env.slow
        (.callFast :: tr, res)
      else ([.callFast], .error (.exc e))
    | .ok raw =>
      if raw.job_title = "" || raw.job_description = "" then
        let e : PyError :=
          ⟨"Exception", "Incomplete extraction - missing critical fields"⟩
        if should_attempt_fallback e then
          let (tr, res) := playwright_path env.slow
          (.callFast :: tr, res)
        else ([.callFast], .error (.exc e))
      else ([.callFast], .ok { raw with extraction_method := some "crawl4ai" })

/-! ## `services/duplicate_checker_service.py` -/

/-- A page of the Notion query response, reduced to the dict lookups
`check_if_job_exists` performs on it: `page["url"]`, `page["id"]`, the
`Position` title property's first `text.content` (present only when the
property's `type` is `"title"` and its list is non-empty), and likewise the
`Company` rich-text property's first `text.content`. -/
structure NotionPage where
  url : Option String := none
  id : Option String := none
  position_title_content : Option String := none
  company_rich_text_content : Option String := none
deriving DecidableEq, Repr

/-- Oracle for the Notion query performed by `check_if_job_exists`: an HTTP
response (status code, parsed `results` list, raw body text), a transport
error (`httpx.RequestError`), or any other exception. -/
inductive NotionLookup where
  | response (status : Nat) (results : List NotionPage) (body : String)
  | requestError (msg : String)
  | unexpectedError (msg : String)
deriving DecidableEq, Repr

/-- Environment of `check_if_job_exists`: whether both `NOTION_API_KEY` and
`NOTION_DATABASE_ID` are set, and the lookup outcome. -/
structure DupEnv where
  hasCredentials : Bool
  lookup : NotionLookup
deriving DecidableEq, Repr

/-- The dict returned by `check_if_job_exists`. -/
structure DupCheckResult where
  exists_ : Bool
  message : Option String := none
  notion_url : Option String := none
  notion_page_id : Option String := none
  job_title : Option String := none
  error : Option String := none
deriving DecidableEq, Repr

/-- `check_if_job_exists(job_url)`: missing credentials, a non-200 status,
a transport error and any unexpected exception all return
`{"exists": False, "error": ...}`; a 200 response with a non-empty
`results` list reports the job as existing, extracting title/company with
the source's fallbacks (`"Unknown Position"`, `""`). -/
def check_if_job_exists (env : DupEnv) : DupCheckResult :=
  if !env.hasCredentials then
    { exists_ := false,
      error := some
        "❌ Missing NOTION_API_KEY or NOTION_DATABASE_ID environment variable." }
  else
    match env.lookup with
    | .requestError msg => { exists_ := false, error := some msg }
    | .unexpectedError msg => { exists_ := false, error := some msg }
    | .response status results body =>
      if status == 200 then
        match results with
        | [] => { exists_ := false, message := some "Job URL is new" }
        | page :: _ =>
          let job_title := page.position_title_content.getD "Unknown Position"
          let company_name := page.company_rich_text_content.getD ""
          let full_title :=
            if company_name ≠ "" then job_title ++ " @ " ++ company_name
            else job_title
          { exists_ := true,
            message := some ("Job already exists: " ++ full_title),
            notion_url := page.url,
            notion_page_id := page.id,
            job_title := some full_title }
      else { exists_ := false, error := some body }

/-! ## `app/tasks.py` -/

/-- The evaluation dict; `process_job_pipeline` reads
`evaluation.get("match_score", 0)`. -/
structure Evaluation where
  match_score : Int
deriving DecidableEq, Repr

/-- Output of `tailor_resume` / `tailor_cover_letter`. -/
structure TailoredDoc where
  tailored_content : String
  strategy_summary : String := ""
deriving DecidableEq, Repr

/-- Output of `upload_pdf_to_supabase`. -/
structure UploadResult where
  public_url : String
deriving DecidableEq, Repr

/-- Output of `save_job_to_notion`. -/
structure NotionResult where
  page_id : String := ""
deriving DecidableEq, Repr

/-- Environment of one `process_job_pipeline` run: the duplicate-checker
environment, the extraction oracle, and the outcome each downstream
collaborator would produce when invoked. -/
structure PipeEnv where
  url : String := ""
  dup : DupEnv
  extract : ExtractEnv
  force_playwright : Bool
  evaluate : Except PyError Evaluation
  tailorResume : Except PyError TailoredDoc
  compileResumePdf : Except PyError Nat
  uploadResumePdf : Except PyError UploadResult
  tailorCoverLetter : Except PyError TailoredDoc
  compileCoverLetterPdf : Except PyError Nat
  uploadCoverLetterPdf : Except PyError UploadResult
  saveNotion : Except PyError NotionResult
deriving DecidableEq, Repr

/-- The success response built at the end of `process_job_pipeline`,
reduced to the claim-relevant fields. -/
structure SuccessResponse where
  message : String
  extraction_method : Option String
  job_url : String
  job_title : String
  company : String
  evaluation : Evaluation
  notion : NotionResult
  resume_tailored : Bool
  resume_pdf_generated : Bool
  resume_pdf_url : Option String := none
  resume_reason : Option String := none
  cover_letter_tailored : Bool
  cover_letter_pdf_generated : Bool
  cover_letter_pdf_url : Option String := none
  cover_letter_reason : Option String := none
deriving DecidableEq, Repr

/-- The value returned by `process_job_pipeline` (Celery marks the task
SUCCESS whenever the function returns), discriminated by its `status`
field. -/
inductive PipeResult where
  | duplicate (message : String) (notion_url notion_page_id job_title : Option String)
  | unavailable (message url reason : String)
  | visaRestricted (message url reason : String)
  | success (resp : SuccessResponse)
deriving DecidableEq, Repr

/-- The `status` field of the returned dict. -/
def PipeResult.status : PipeResult → String
  | .duplicate _ _ _ _ => "duplicate"
  | .unavailable _ _ _ => "unavailable"
  | .visaRestricted _ _ _ => "visa_restricted"
  | .success _ => "success"

/-- The resume stage of the `match_score > 70` branch: `tailor_resume`,
then (only on its success) the `compiling_resume_pdf` boundary,
`compile_resume_to_pdf` and `upload_pdf_to_supabase`.  The inner
`except` absorbs PDF/upload errors leaving `resume_pdf_url = None`;
the outer `except` absorbs tailoring errors leaving `resume_data = None`.
Returns (trace, resume_data, resume_pdf_url). -/
def resumeStage (env : PipeEnv) :
    List Event × Option TailoredDoc × Option String :=
  match env.tailorResume with
  | .error _ =>
    ([.update "tailoring_resume" 45, .callTailorResume], none, none)
  | .ok doc =>
    match env.compileResumePdf with
    | .error _ =>
      ([.update "tailoring_resume" 45, .callTailorResume,
        .update "compiling_resume_pdf" 55, .callCompileResumePdf],
       some doc, none)
    | .ok _bytes =>
      match env.uploadResumePdf with
      | .error _ =>
        ([.update "tailoring_resume" 45, .callTailorResume,
          .update "compiling_resume_pdf" 55, .callCompileResumePdf,
          .callUploadResumePdf],
         some doc, none)
      | .ok up =>
        ([.update "tailoring_resume" 45, .callTailorResume,
          .update "compiling_resume_pdf" 55, .callCompileResumePdf,
          .callUploadResumePdf],
         some doc, some up.public_url)

/-- The cover-letter stage, symmetric to `resumeStage`.
Returns (trace, cover_letter_data, cover_letter_pdf_url). -/
def coverLetterStage (env : PipeEnv) :
    List Event × Option TailoredDoc × Option String :=
  match env.tailorCoverLetter with
  | .error _ =>
    ([.update "tailoring_cover_letter" 65, .callTailorCoverLetter], none, none)
  | .ok doc =>
    match env.compileCoverLetterPdf with
    | .error _ =>
      ([.update "tailoring_cover_letter" 65, .callTailorCoverLetter,
        .update "compiling_cover_letter_pdf" 75, .callCompileCoverLetterPdf],
       some doc, none)
    | .ok _bytes =>
      match env.uploadCoverLetterPdf with
      | .error _ =>
        ([.update "tailoring_cover_letter" 65, .callTailorCoverLetter,
          .update "compiling_cover_letter_pdf" 75, .callCompileCoverLetterPdf,
          .callUploadCoverLetterPdf],
         some doc, none)
      | .ok up =>
        ([.update "tailoring_cover_letter" 65, .callTailorCoverLetter,
          .update "compiling_cover_letter_pdf" 75, .callCompileCoverLetterPdf,
          .callUploadCoverLetterPdf],
         some doc, some up.public_url)

/-- Builds the final success response of `process_job_pipeline` from the
normalized record, evaluation, stage outputs and the Notion result.  The
`else` branches set the tailored flags to `False` and the reason to
`f"Match score {match_score}% ≤ 70 threshold"` whenever the stage data is
absent, regardless of why it is absent. -/
def buildResponse (normalized : Job) (evaluation : Evaluation)
    (resume_data : Option TailoredDoc) (resume_pdf_url : Option String)
    (cover_letter_data : Option TailoredDoc)
    (cover_letter_pdf_url : Option String) (notion : NotionResult) :
    SuccessResponse :=
  let base : SuccessResponse :=
    { message := "Job extracted, evaluated and saved",
      extraction_method := normalized.extraction_method,
      job_url := normalized.url,
      job_title := normalized.job_title,
      company := normalized.company_name,
      evaluation := evaluation,
      notion := notion,
      resume_tailored := false,
      resume_pdf_generated := false,
      cover_letter_tailored := false,
      cover_letter_pdf_generated := false }
  let thresholdMsg :=
    "Match score " ++ toString evaluation.match_score ++ "% ≤ 70 threshold"
  let withResume :=
    match resume_data with
    | some _ =>
      { base with resume_tailored := true,
                  resume_pdf_generated := resume_pdf_url.isSome,
                  resume_pdf_url := resume_pdf_url }
    | none =>
      { base with resume_tailored := false,
                  resume_pdf_generated := false,
                  resume_reason := some thresholdMsg }
  match cover_letter_data with
  | some _ =>
    { withResume with cover_letter_tailored := true,
                      cover_letter_pdf_generated := cover_letter_pdf_url.isSome,
                      cover_letter_pdf_url := cover_letter_pdf_url }
  | none =>
    { withResume with cover_letter_tailored := false,
                      cover_letter_pdf_generated := false,
                      cover_letter_reason := some thresholdMsg }

/-- `process_job_pipeline(task, url, force_playwright)`: duplicate check,
extraction with the two business-outcome handlers, evaluation, the gated
tailoring stages, persistence, and the final response.  An `Except.error`
result is an exception the pipeline lets propagate. -/
def process_job_pipeline (env : PipeEnv) :
    List Event × Except PyError PipeResult :=
  let tr0 : List Event := [.update "duplicate_check" 10, .callCheckDuplicate]
  let dup := check_if_job_exists env.dup
  if dup.exists_ then
    (tr0, .ok (.duplicate (dup.message.getD "Job already exists")
      dup.notion_url dup.notion_page_id dup.job_title))
  else
    let tr1 := tr0 ++ [.update "extracting" 20]
    let (extTr, extRes) := extract_job_data env.extract env.force_playwright
    match extRes with
    | .error (.jobUnavailable r) =>
      (tr1 ++ extTr,
       .ok (.unavailable ("Job posting is no longer available: " ++ r) env.url r))
    | .error (.visaRestricted r) =>
      (tr1 ++ extTr,
       .ok (.visaRestricted ("Job has visa restrictions: " ++ r) env.url r))
    | .error (.exc e) => (tr1 ++ extTr, .error e)
    | .ok normalized =>
      let tr2 := tr1 ++ extTr ++ [.update "evaluating" 35, .callEvaluate]
      match env.evaluate with
      | .error e => (tr2, .error e)
      | .ok evaluation =>
        let match_score := evaluation.match_score
        let (tailTr, resume_data, resume_pdf_url, cover_letter_data,
             cover_letter_pdf_url) :=
          if match_score > 70 then
            let (rTr, rData, rUrl) := resumeStage env
            let (cTr, cData, cUrl) := coverLetterStage env
            (rTr ++ cTr, rData, rUrl, cData, cUrl)
          else ([], none, none, none, none)
        let tr3 := tr2 ++ tailTr ++
          [.update "saving_to_notion" 85, .callSaveNotion]
        match env.saveNotion with
        | .error e => (tr3, .error e)
        | .ok notion =>
          let tr4 := tr3 ++ [.update "complete" 100]
          (tr4, .ok (.success (buildResponse normalized evaluation
            resume_data resume_pdf_url cover_letter_data
            cover_letter_pdf_url notion)))

/-- Terminal Celery state of one task execution. -/
inductive TaskOutcome where
  | SUCCESS (result : PipeResult)
  | FAILURE (e : PyError)
deriving DecidableEq, Repr

/-- `process_job_task`: reports `{"stage": "starting", "progress": 0}`, runs
the pipeline, returns its result (→ SUCCESS) or re-raises (→ FAILURE). -/
def process_job_task (env : PipeEnv) : List Event × TaskOutcome :=
  let (tr, res) := process_job_pipeline env
  (Event.update "starting" 0 :: tr,
   match res with
   | .ok r => .SUCCESS r
   | .error e => .FAILURE e)

/-! ## Submission surface -/

/-- Lifecycle states of the task tracker. -/
inductive TaskStateTag where
  | PENDING
  | PROCESSING
  | SUCCESS
  | FAILURE
  | REVOKED
deriving DecidableEq, Repr

/-- One entry of the task store: id, the enqueued parameters, and the
current lifecycle state. -/
structure TaskEntry where
  id : Nat
  url : String
  force_playwright : Bool
  state : TaskStateTag
deriving DecidableEq, Repr

/-- The acknowledgment returned to the submitter. -/
structure SubmitAck where
  task_id : Nat
  error : Option String := none
deriving DecidableEq, Repr

/-- Modelled from the spec: the asynchronous submission endpoint (the route
that calls `process_job_task.delay` and returns `{taskId}`) is not among the
files under `src/`; only the Celery task it enqueues (`process_job_task` in
`app/tasks.py`) and the broker configuration (`app/celery_app.py`) are.
Per the spec, "Single submission enqueues and returns a task id immediately
(non-blocking)" and "Submission is always an immediate non-error
acknowledgment": the request is recorded PENDING in the task store and the
returned acknowledgment carries only the fresh task id. -/
def submit_job (store : List TaskEntry) (url : String)
    (force_playwright : Bool) : List TaskEntry × SubmitAck :=
  let id := store.length
  (⟨id, url, force_playwright, .PENDING⟩ :: store, ⟨id, none⟩)

/-- Poll the task store for a task's lifecycle state. -/
def poll_state (store : List TaskEntry) (id : Nat) : Option TaskStateTag :=
  (store.find? (fun e => e.id == id)).map (fun e => e.state)

/-- A worker later picks the entry up and runs `process_job_task`; the
terminal state (and only it) records whether the pipeline raised. -/
def run_task (entry : TaskEntry) (env : PipeEnv) : TaskEntry :=
  match (process_job_task env).2 with
  | .SUCCESS _ => { entry with state := .SUCCESS }
  | .FAILURE _ => { entry with state := .FAILURE }

/-! ## Trace helpers -/

/-- The `update_state` calls of a trace, as (stage, progress) pairs. -/
def updatesOf (tr : List Event) : List (String × Nat) :=
  tr.filterMap (fun e => match e with
    | .update s p => some (s, p)
    | _ => none)

/-- The progress values reported along a trace, in order. -/
def progressOf (tr : List Event) : List Nat := (updatesOf tr).map Prod.snd

/-- A list of progress values is monotonically non-decreasing. -/
def Nondecreasing (l : List Nat) : Prop := l.Chain' (· ≤ ·)

instance (l : List Nat) : Decidable (Nondecreasing l) :=
  inferInstanceAs (Decidable (l.Chain' (· ≤ ·)))

/-- Executable check for `Nondecreasing`. -/
def nondecreasingB : List Nat → Bool
  | [] => true
  | [_] => true
  | a :: b :: rest => decide (a ≤ b) && nondecreasingB (b :: rest)

lemma nondecreasingB_iff : ∀ l : List Nat,
    nondecreasingB l = true ↔ Nondecreasing l
  | [] => by simp [nondecreasingB, Nondecreasing]
  | [a] => by simp [nondecreasingB, Nondecreasing]
  | a :: b :: t => by
    have ih := nondecreasingB_iff (b :: t)
    rw [nondecreasingB, Bool.and_eq_true, decide_eq_true_iff, ih]
    unfold Nondecreasing
    rw [List.chain'_cons]

/-- The 9 fixed stage boundaries of `process_job_pipeline`, in pipeline
order with their progress values. -/
def stageBoundaries : List (String × Nat) :=
  [("duplicate_check", 10), ("extracting", 20), ("evaluating", 35),
   ("tailoring_resume", 45), ("compiling_resume_pdf", 55),
   ("tailoring_cover_letter", 65), ("compiling_cover_letter_pdf", 75),
   ("saving_to_notion", 85), ("complete", 100)]

@[simp] lemma updatesOf_nil : updatesOf [] = [] := rfl

@[simp] lemma updatesOf_append (a b : List Event) :
    updatesOf (a ++ b) = updatesOf a ++ updatesOf b :=
  List.filterMap_append a b _

@[simp] lemma updatesOf_cons_update (s : String) (p : Nat) (tr : List Event) :
    updatesOf (Event.update s p :: tr) = (s, p) :: updatesOf tr := rfl

@[simp] lemma updatesOf_cons_callFast (tr : List Event) :
    updatesOf (Event.callFast :: tr) = updatesOf tr := rfl

@[simp] lemma updatesOf_cons_callFallback (tr : List Event) :
    updatesOf (Event.callFallback :: tr) = updatesOf tr := rfl

@[simp] lemma updatesOf_cons_callScrape (tr : List Event) :
    updatesOf (Event.callScrape :: tr) = updatesOf tr := rfl

@[simp] lemma updatesOf_cons_callNormalize (tr : List Event) :
    updatesOf (Event.callNormalize :: tr) = updatesOf tr := rfl

/-- The fallback path reports no `update_state` boundary of its own. -/
lemma updatesOf_playwright_path (s : SlowEnv) :
    updatesOf (playwright_path s).1 = [] := by
  rcases h : playwright_scrape_job s.nav with e | page
  · rcases e with r | e <;> simp [playwright_path, h]
  · rcases hn : s.normalize with e | j <;> simp [playwright_path, h, hn]

/-- The extraction coordinator reports no `update_state` boundary. -/
lemma updatesOf_extract_job_data (env : ExtractEnv) (force : Bool) :
    updatesOf (extract_job_data env force).1 = [] := by
  have hpw := updatesOf_playwright_path env.slow
  by_cases hf : force = true
  · simpa [extract_job_data, hf] using hpw
  · rcases h : env.fast with e | raw
    · rcases e with r | r | e
      · simp [extract_job_data, hf, h]
      · simp [extract_job_data, hf, h]
      · by_cases hs : should_attempt_fallback e = true
        · rcases hp : playwright_path env.slow with ⟨tr, res⟩
          rw [hp] at hpw
          simp only [extract_job_data, hf, h, hs, hp, if_neg, if_true,
            Bool.false_eq_true, if_false]
          simpa using hpw
        · simp [extract_job_data, hf, h, hs]
    · by_cases hv : (raw.job_title = "" || raw.job_description = "") = true
      · by_cases hs : should_attempt_fallback
            ⟨"Exception", "Incomplete extraction - missing critical fields"⟩ = true
        · rcases hp : playwright_path env.slow with ⟨tr, res⟩
          rw [hp] at hpw
          simp only [extract_job_data, hf, h, hv, hs, hp, Bool.false_eq_true,
            if_false, if_true]
          simpa using hpw
        · simp [extract_job_data, hf, h, hv, hs]
      · simp [extract_job_data, hf, h, hv]

/-- Every branch of the fallback path begins by invoking it. -/
lemma callFallback_mem_playwright_path (s : SlowEnv) :
    Event.callFallback ∈ (playwright_path s).1 := by
  rcases h : playwright_scrape_job s.nav with e | page
  · rcases e with r | e <;> simp [playwright_path, h]
  · rcases hn : s.normalize with e | j <;> simp [playwright_path, h, hn]

/-- `_should_attempt_fallback` unfolded to the claim's explicit condition. -/
lemma should_attempt_fallback_iff (e : PyError) :
    should_attempt_fallback e = true ↔
      ((fallback_patterns.any
          (fun pat => strContains (strLower e.message) pat)) = true ∨
        e.typeName ∈ retriable_errors) := by
  simp [should_attempt_fallback, List.contains, List.elem_iff]

/-! ## Sample environments (used by the witnesses) -/

/-- A live job page: long enough, no unavailable pattern, has job
indicators. -/
def livePage : ScrapedPage :=
  { text := "About the role: build data pipelines. Responsibilities include design and delivery. Requirements: Python, SQL. Apply now to join our growing platform team and ship reliable systems.",
    title := "Data Engineer - Acme" }

/-- A dead job page: long enough but carrying an unavailable pattern. -/
def deadPage : ScrapedPage :=
  { text := "We are sorry. This job is no longer available. Please browse our other openings and check back soon for new roles and opportunities across all our teams here.",
    title := "Job closed" }

/-- A normalized record as the LLM normalization would return it. -/
def sampleJob : Job :=
  { url := "https://example.com/job/1",
    job_title := "Data Engineer",
    company_name := "Acme",
    job_description := "Build data pipelines." }

/-- A fallback oracle that succeeds. -/
def slowOk : SlowEnv := { nav := .ok livePage, normalize := .ok sampleJob }

/-- C2 witness environment: the fast path raises an unrecognized
`ValueError`. -/
def envC2 : ExtractEnv :=
  { fast := .error (.exc ⟨"ValueError", "boom"⟩), slow := slowOk }

/-- C8 witness environment: navigation succeeds but the page is dead. -/
def slowDead : SlowEnv := { nav := .ok deadPage, normalize := .ok sampleJob }

/-! ## Claims -/

/-- C2: for every non-business-outcome error raised by the fast path,
`extract_job_data` runs the slow path if and only if the recoverable-error
predicate holds — the lowered message contains one of the listed substrings
or the type name is one of `TimeoutError`, `NetworkError`,
`ConnectionError`, `RuntimeError`; otherwise it re-raises the same error
with no fallback attempted. -/
theorem fallback_iff_recoverable (env : ExtractEnv) (e : PyError)
    (hfast : env.fast = .error (.exc e)) :
    (Event.callFallback ∈ (extract_job_data env false).1 ↔
      ((fallback_patterns.any
          (fun pat => strContains (strLower e.message) pat)) = true ∨
        e.typeName ∈ retriable_errors)) ∧
    (¬ ((fallback_patterns.any
          (fun pat => strContains (strLower e.message) pat)) = true ∨
        e.typeName ∈ retriable_errors) →
      extract_job_data env false = ([.callFast], .error (.exc e))) := by
  by_cases hs : should_attempt_fallback e = true
  · have hcond := (should_attempt_fallback_iff e).mp hs
    rcases hp : playwright_path env.slow with ⟨tr, res⟩
    have hmem := callFallback_mem_playwright_path env.slow
    rw [hp] at hmem
    constructor
    · rw [extract_job_data]
      simp only [hfast, hs, hp, Bool.false_eq_true, if_false, if_true]
      exact ⟨fun _ => hcond, fun _ => by simp [hmem]⟩
    · intro hc; exact absurd hcond hc
  · have hcond : ¬ ((fallback_patterns.any
        (fun pat => strContains (strLower e.message) pat)) = true ∨
        e.typeName ∈ retriable_errors) := fun hc =>
      hs ((should_attempt_fallback_iff e).mpr hc)
    rw [extract_job_data]
    simp only [hfast, hs, Bool.false_eq_true, if_false]
    refine ⟨?_, fun _ => by trivial⟩
    constructor
    · intro hmem
      exact absurd hmem (by simp)
    · intro hc
      exact absurd hc hcond

/-- C2 witness: a `ValueError` with message `"boom"` matches neither the
substring list nor the type list, so no fallback happens and the error is
re-raised unchanged. -/
theorem fallback_iff_recoverable_witness :
    (Event.callFallback ∈ (extract_job_data envC2 false).1 ↔
      ((fallback_patterns.any
          (fun pat => strContains (strLower (PyError.mk "ValueError" "boom").message) pat)) = true ∨
        (PyError.mk "ValueError" "boom").typeName ∈ retriable_errors)) ∧
    (¬ ((fallback_patterns.any
          (fun pat => strContains (strLower (PyError.mk "ValueError" "boom").message) pat)) = true ∨
        (PyError.mk "ValueError" "boom").typeName ∈ retriable_errors) →
      extract_job_data envC2 false =
        ([.callFast], .error (.exc ⟨"ValueError", "boom"⟩))) :=
  fallback_iff_recoverable envC2 ⟨"ValueError", "boom"⟩ rfl

/-- C8: when the fallback's navigation obtains a page whose raw text/title
the availability check flags as unavailable, the LLM normalization
collaborator is never invoked and `_playwright_path` raises the pipeline's
`JobUnavailableError` with that reason. -/
theorem slow_path_availability_before_normalize (s : SlowEnv)
    (page : ScrapedPage) (r : String)
    (hnav : s.nav = .ok page)
    (hdet : detect_unavailable_in_text page.text page.title = (true, some r)) :
    Event.callNormalize ∉ (playwright_path s).1 ∧
    (playwright_path s).2 = .error (.jobUnavailable r) := by
  have hscrape : playwright_scrape_job s.nav =
      .error (.playwrightUnavailable r) := by
    rw [hnav]
    simp [playwright_scrape_job, hdet]
  simp [playwright_path, hscrape]

/-- C8 witness: a scraped page announcing "this job is no longer available"
is flagged by the availability check; normalization is never called and the
fallback raises `JobUnavailableError("Job posting closed")`. -/
theorem slow_path_availability_before_normalize_witness :
    Event.callNormalize ∉ (playwright_path slowDead).1 ∧
    (playwright_path slowDead).2 =
      .error (.jobUnavailable "Job posting closed") :=
  slow_path_availability_before_normalize slowDead deadPage
    "Job posting closed" rfl (by decide)

/-- C1: when the fast path raises a business-outcome signal and
`force_playwright` is false, `extract_job_data` propagates it with no
fallback invocation, and the task returns normally (SUCCESS) with result
status `"unavailable"` resp. `"visa_restricted"`. -/
theorem business_outcome_no_fallback (env : PipeEnv) (r : String)
    (hforce : env.force_playwright = false)
    (hdup : (check_if_job_exists env.dup).exists_ = false) :
    (env.extract.fast = .error (.jobUnavailable r) →
      Event.callFallback ∉ (process_job_task env).1 ∧
      Event.callScrape ∉ (process_job_task env).1 ∧
      (process_job_task env).2 = .SUCCESS
        (.unavailable ("Job posting is no longer available: " ++ r)
          env.url r) ∧
      ∃ res, (process_job_task env).2 = .SUCCESS res ∧
        res.status = "unavailable") ∧
    (env.extract.fast = .error (.visaRestricted r) →
      Event.callFallback ∉ (process_job_task env).1 ∧
      Event.callScrape ∉ (process_job_task env).1 ∧
      (process_job_task env).2 = .SUCCESS
        (.visaRestricted ("Job has visa restrictions: " ++ r) env.url r) ∧
      ∃ res, (process_job_task env).2 = .SUCCESS res ∧
        res.status = "visa_restricted") := by
  constructor
  · intro hfast
    have hext : extract_job_data env.extract false =
        ([.callFast], .error (.jobUnavailable r)) := by
      simp [extract_job_data, hfast]
    simp [process_job_task, process_job_pipeline, hdup, hforce, hext,
      PipeResult.status]
  · intro hfast
    have hext : extract_job_data env.extract false =
        ([.callFast], .error (.visaRestricted r)) := by
      simp [extract_job_data, hfast]
    simp [process_job_task, process_job_pipeline, hdup, hforce, hext,
      PipeResult.status]

/-- A pipeline environment whose duplicate check finds nothing and whose
collaborators all succeed with score 85 (used by several witnesses). -/
def dupEnvNew : DupEnv :=
  { hasCredentials := true, lookup := .response 200 [] "{}" }

/-- C1 witness environment: fast path raises `JobUnavailableError`. -/
def envC1 : PipeEnv :=
  { url := "https://example.com/job/1",
    dup := dupEnvNew,
    extract := { fast := .error (.jobUnavailable "position filled"),
                 slow := slowOk },
    force_playwright := false,
    evaluate := .ok ⟨85⟩,
    tailorResume := .ok ⟨"resume", ""⟩,
    compileResumePdf := .ok 1000,
    uploadResumePdf := .ok ⟨"https://supabase/resume.pdf"⟩,
    tailorCoverLetter := .ok ⟨"cover letter", ""⟩,
    compileCoverLetterPdf := .ok 900,
    uploadCoverLetterPdf := .ok ⟨"https://supabase/cl.pdf"⟩,
    saveNotion := .ok ⟨"page-1"⟩ }

/-- C1 witness: with the fast path raising Unavailable, no fallback event
appears and the task ends SUCCESS with status `"unavailable"`. -/
theorem business_outcome_no_fallback_witness :
    Event.callFallback ∉ (process_job_task envC1).1 ∧
    (process_job_task envC1).2 = .SUCCESS
      (.unavailable "Job posting is no longer available: position filled"
        "https://example.com/job/1" "position filled") := by
  have h := business_outcome_no_fallback envC1 "position filled" rfl (by decide)
  exact ⟨(h.1 rfl).1, (h.1 rfl).2.2.1⟩

/-- The fallback path's own trace invokes it exactly once. -/
lemma count_callFallback_playwright_path (s : SlowEnv) :
    (playwright_path s).1.count Event.callFallback = 1 := by
  rcases h : playwright_scrape_job s.nav with e | page
  · rcases e with r | e <;> simp [playwright_path, h, List.count_cons]
  · rcases hn : s.normalize with e | j <;>
      simp [playwright_path, h, hn, List.count_cons]

/-- The resume stage never invokes the fallback. -/
lemma count_callFallback_resumeStage (env : PipeEnv) :
    (resumeStage env).1.count Event.callFallback = 0 := by
  rcases h1 : env.tailorResume with e | d
  · simp [resumeStage, h1, List.count_cons]
  · rcases h2 : env.compileResumePdf with e | b
    · simp [resumeStage, h1, h2, List.count_cons]
    · rcases h3 : env.uploadResumePdf with e | u <;>
        simp [resumeStage, h1, h2, h3, List.count_cons]

/-- The cover-letter stage never invokes the fallback. -/
lemma count_callFallback_coverLetterStage (env : PipeEnv) :
    (coverLetterStage env).1.count Event.callFallback = 0 := by
  rcases h1 : env.tailorCoverLetter with e | d
  · simp [coverLetterStage, h1, List.count_cons]
  · rcases h2 : env.compileCoverLetterPdf with e | b
    · simp [coverLetterStage, h1, h2, List.count_cons]
    · rcases h3 : env.uploadCoverLetterPdf with e | u <;>
        simp [coverLetterStage, h1, h2, h3, List.count_cons]

/-- C3: a recoverable fast-path error triggers the fallback exactly once in
the whole task trace, and if that single fallback attempt also fails with a
technical error, the task reaches FAILURE with that error. -/
theorem transient_single_fallback (env : PipeEnv) (e : PyError)
    (hforce : env.force_playwright = false)
    (hdup : (check_if_job_exists env.dup).exists_ = false)
    (hfast : env.extract.fast = .error (.exc e))
    (hrec : should_attempt_fallback e = true) :
    (process_job_task env).1.count Event.callFallback = 1 ∧
    (∀ e2, (playwright_path env.extract.slow).2 = .error (.exc e2) →
      (process_job_task env).2 = .FAILURE e2) := by
  rcases hp : playwright_path env.extract.slow with ⟨ptr, pres⟩
  have hpc : ptr.count Event.callFallback = 1 := by
    have h := count_callFallback_playwright_path env.extract.slow
    rw [hp] at h; exact h
  have hext : extract_job_data env.extract false = (.callFast :: ptr, pres) := by
    rw [extract_job_data]
    simp [hfast, hrec, hp]
  constructor
  · rcases pres with err | j
    · rcases err with r | r | e2 <;>
        simp [process_job_task, process_job_pipeline, hdup, hforce, hext,
          List.count_append, List.count_cons, hpc]
    · rcases hEv : env.evaluate with eEv | ev
      · simp [process_job_task, process_job_pipeline, hdup, hforce, hext,
          hEv, List.count_append, List.count_cons, hpc]
      · by_cases hS : ev.match_score > 70
        · rcases hR : resumeStage env with ⟨rTr, rD, rU⟩
          rcases hC : coverLetterStage env with ⟨cTr, cD, cU⟩
          have hrc : rTr.count Event.callFallback = 0 := by
            have h := count_callFallback_resumeStage env
            rw [hR] at h; exact h
          have hcc : cTr.count Event.callFallback = 0 := by
            have h := count_callFallback_coverLetterStage env
            rw [hC] at h; exact h
          rcases hN : env.saveNotion with eN | n <;>
            simp [process_job_task, process_job_pipeline, hdup, hforce, hext,
              hEv, hS, hR, hC, hN, List.count_append, List.count_cons,
              hpc, hrc, hcc]
        · rcases hN : env.saveNotion with eN | n <;>
            simp [process_job_task, process_job_pipeline, hdup, hforce, hext,
              hEv, hS, hN, List.count_append, List.count_cons, hpc]
  · intro e2 he2
    simp only at he2
    subst he2
    simp [process_job_task, process_job_pipeline, hdup, hforce, hext]

/-- C3 witness environment: fast path times out, fallback navigation also
fails. -/
def envC3 : PipeEnv :=
  { envC1 with
    extract := { fast := .error (.exc ⟨"TimeoutError", "navigation timeout"⟩),
                 slow := { nav := .err ⟨"TimeoutError",
                             "Scraping failed after 3 attempts: timeout"⟩,
                           normalize := .ok sampleJob } } }

/-- C3 witness: the fallback is invoked exactly once and its technical
failure makes the task FAILURE with the wrapped error. -/
theorem transient_single_fallback_witness :
    (process_job_task envC3).1.count Event.callFallback = 1 ∧
    (process_job_task envC3).2 = .FAILURE
      ⟨"Exception",
       "Playwright extraction failed: Scraping failed after 3 attempts: timeout"⟩ := by
  have h := transient_single_fallback envC3
    ⟨"TimeoutError", "navigation timeout"⟩ rfl (by decide) rfl (by decide)
  exact ⟨h.1, h.2 _ (by decide)⟩

/-- Every extraction-trace event is one of the four extraction
collaborator invocations. -/
lemma extract_trace_subset (env : ExtractEnv) (force : Bool) :
    ∀ ev ∈ (extract_job_data env force).1,
      ev = Event.callFast ∨ ev = Event.callFallback ∨
      ev = Event.callScrape ∨ ev = Event.callNormalize := by
  have hpw : ∀ ev ∈ (playwright_path env.slow).1,
      ev = Event.callFast ∨ ev = Event.callFallback ∨
      ev = Event.callScrape ∨ ev = Event.callNormalize := by
    rcases h : playwright_scrape_job env.slow.nav with e | page
    · rcases e with r | e <;> simp [playwright_path, h]
    · rcases hn : env.slow.normalize with e | j <;>
        simp [playwright_path, h, hn]
  by_cases hf : force = true
  · intro ev hev
    rw [extract_job_data] at hev
    simp only [hf, if_true] at hev
    exact hpw ev hev
  · rcases h : env.fast with e | raw
    · rcases e with r | r | e
      · simp [extract_job_data, hf, h]
      · simp [extract_job_data, hf, h]
      · by_cases hs : should_attempt_fallback e = true
        · rcases hp : playwright_path env.slow with ⟨tr, res⟩
          rw [hp] at hpw
          have hext : (extract_job_data env force).1 = Event.callFast :: tr := by
            rw [extract_job_data]; simp [hf, h, hs, hp]
          rw [hext]
          intro ev hev
          rcases List.mem_cons.mp hev with hev | hev
          · left; exact hev
          · exact hpw ev hev
        · simp [extract_job_data, hf, h, hs]
    · by_cases hv : (raw.job_title = "" || raw.job_description = "") = true
      · by_cases hs : should_attempt_fallback
            ⟨"Exception", "Incomplete extraction - missing critical fields"⟩ = true
        · rcases hp : playwright_path env.slow with ⟨tr, res⟩
          rw [hp] at hpw
          have hext : (extract_job_data env force).1 = Event.callFast :: tr := by
            rw [extract_job_data]; simp [hf, h, hv, hs, hp]
          rw [hext]
          intro ev hev
          rcases List.mem_cons.mp hev with hev | hev
          · left; exact hev
          · exact hpw ev hev
        · simp [extract_job_data, hf, h, hv, hs]
      · simp [extract_job_data, hf, h, hv]

/-- Resume-stage output: data is present exactly when tailoring succeeded. -/
lemma resumeStage_data (env : PipeEnv) :
    (resumeStage env).2.1 = (env.tailorResume).toOption := by
  rcases h1 : env.tailorResume with e | d
  · simp [resumeStage, h1, Except.toOption]
  · rcases h2 : env.compileResumePdf with e | b
    · simp [resumeStage, h1, h2, Except.toOption]
    · rcases h3 : env.uploadResumePdf with e | u <;>
        simp [resumeStage, h1, h2, h3, Except.toOption]

/-- Resume-stage output: the PDF URL is absent when compilation or upload
failed. -/
lemma resumeStage_url_none (env : PipeEnv)
    (h : (∃ e, env.compileResumePdf = .error e) ∨
         (∃ e, env.uploadResumePdf = .error e)) :
    (resumeStage env).2.2 = none := by
  rcases h1 : env.tailorResume with e | d
  · simp [resumeStage, h1]
  · rcases h2 : env.compileResumePdf with e | b
    · simp [resumeStage, h1, h2]
    · rcases h3 : env.uploadResumePdf with e | u
      · simp [resumeStage, h1, h2, h3]
      · rcases h with ⟨e, he⟩ | ⟨e, he⟩
        · rw [h2] at he; cases he
        · rw [h3] at he; cases he

/-- The resume stage always attempts tailoring. -/
lemma callTailorResume_mem_resumeStage (env : PipeEnv) :
    Event.callTailorResume ∈ (resumeStage env).1 := by
  rcases h1 : env.tailorResume with e | d
  · simp [resumeStage, h1]
  · rcases h2 : env.compileResumePdf with e | b
    · simp [resumeStage, h1, h2]
    · rcases h3 : env.uploadResumePdf with e | u <;>
        simp [resumeStage, h1, h2, h3]

/-- Cover-letter-stage output: data is present exactly when tailoring
succeeded. -/
lemma coverLetterStage_data (env : PipeEnv) :
    (coverLetterStage env).2.1 = (env.tailorCoverLetter).toOption := by
  rcases h1 : env.tailorCoverLetter with e | d
  · simp [coverLetterStage, h1, Except.toOption]
  · rcases h2 : env.compileCoverLetterPdf with e | b
    · simp [coverLetterStage, h1, h2, Except.toOption]
    · rcases h3 : env.uploadCoverLetterPdf with e | u <;>
        simp [coverLetterStage, h1, h2, h3, Except.toOption]

/-- The cover-letter stage always attempts tailoring. -/
lemma callTailorCL_mem_coverLetterStage (env : PipeEnv) :
    Event.callTailorCoverLetter ∈ (coverLetterStage env).1 := by
  rcases h1 : env.tailorCoverLetter with e | d
  · simp [coverLetterStage, h1]
  · rcases h2 : env.compileCoverLetterPdf with e | b
    · simp [coverLetterStage, h1, h2]
    · rcases h3 : env.uploadCoverLetterPdf with e | u <;>
        simp [coverLetterStage, h1, h2, h3]

/-- Shape of a run that reaches persistence successfully: the result is the
built success response over the gated stage outputs. -/
lemma pipeline_success_shape (env : PipeEnv) (j : Job) (ev : Evaluation)
    (n : NotionResult)
    (hdup : (check_if_job_exists env.dup).exists_ = false)
    (hext : (extract_job_data env.extract env.force_playwright).2 = .ok j)
    (hEv : env.evaluate = .ok ev)
    (hN : env.saveNotion = .ok n) :
    (process_job_pipeline env).2 = .ok (.success (buildResponse j ev
      (if ev.match_score > 70 then (resumeStage env).2.1 else none)
      (if ev.match_score > 70 then (resumeStage env).2.2 else none)
      (if ev.match_score > 70 then (coverLetterStage env).2.1 else none)
      (if ev.match_score > 70 then (coverLetterStage env).2.2 else none)
      n)) := by
  rcases hE : extract_job_data env.extract env.force_playwright with ⟨extTr, extRes⟩
  rw [hE] at hext
  simp only at hext
  subst hext
  rcases hR : resumeStage env with ⟨rTr, rD, rU⟩
  rcases hC : coverLetterStage env with ⟨cTr, cD, cU⟩
  by_cases hS : ev.match_score > 70 <;>
    simp [process_job_pipeline, hdup, hE, hEv, hN, hR, hC, hS]

/-- Trace shape of a run that reaches persistence successfully. -/
lemma pipeline_success_trace (env : PipeEnv) (j : Job) (ev : Evaluation)
    (n : NotionResult)
    (hdup : (check_if_job_exists env.dup).exists_ = false)
    (hext : (extract_job_data env.extract env.force_playwright).2 = .ok j)
    (hEv : env.evaluate = .ok ev)
    (hN : env.saveNotion = .ok n) :
    (process_job_pipeline env).1 =
      [.update "duplicate_check" 10, .callCheckDuplicate,
       .update "extracting" 20]
      ++ (extract_job_data env.extract env.force_playwright).1
      ++ [.update "evaluating" 35, .callEvaluate]
      ++ (if ev.match_score > 70 then
            (resumeStage env).1 ++ (coverLetterStage env).1
          else [])
      ++ [.update "saving_to_notion" 85, .callSaveNotion,
          .update "complete" 100] := by
  rcases hE : extract_job_data env.extract env.force_playwright with ⟨extTr, extRes⟩
  rw [hE] at hext
  simp only at hext
  subst hext
  rcases hR : resumeStage env with ⟨rTr, rD, rU⟩
  rcases hC : coverLetterStage env with ⟨cTr, cD, cU⟩
  by_cases hS : ev.match_score > 70 <;>
    simp [process_job_pipeline, hdup, hE, hEv, hN, hR, hC, hS]

/-- A trace event other than the four extraction calls never appears in an
extraction trace. -/
lemma not_mem_extract_trace (env : ExtractEnv) (force : Bool) (t : Event)
    (h1 : t ≠ .callFast) (h2 : t ≠ .callFallback)
    (h3 : t ≠ .callScrape) (h4 : t ≠ .callNormalize) :
    t ∉ (extract_job_data env force).1 := by
  intro hmem
  rcases extract_trace_subset env force t hmem with h | h | h | h
  · exact h1 h
  · exact h2 h
  · exact h3 h
  · exact h4 h

/-- C4: with `match_score ≤ 70` none of the tailoring, PDF-compilation or
upload collaborators is invoked and the final success response marks both
`resume_tailored` and `cover_letter_tailored` false with explicit
threshold-citing reasons; with `match_score > 70` both tailoring stages are
attempted. -/
theorem tailoring_gate (env : PipeEnv) (j : Job) (ev : Evaluation)
    (n : NotionResult)
    (hdup : (check_if_job_exists env.dup).exists_ = false)
    (hext : (extract_job_data env.extract env.force_playwright).2 = .ok j)
    (hEv : env.evaluate = .ok ev)
    (hN : env.saveNotion = .ok n) :
    (ev.match_score ≤ 70 →
      (Event.callTailorResume ∉ (process_job_pipeline env).1 ∧
       Event.callCompileResumePdf ∉ (process_job_pipeline env).1 ∧
       Event.callUploadResumePdf ∉ (process_job_pipeline env).1 ∧
       Event.callTailorCoverLetter ∉ (process_job_pipeline env).1 ∧
       Event.callCompileCoverLetterPdf ∉ (process_job_pipeline env).1 ∧
       Event.callUploadCoverLetterPdf ∉ (process_job_pipeline env).1) ∧
      ∃ resp, (process_job_pipeline env).2 = .ok (.success resp) ∧
        resp.resume_tailored = false ∧ resp.cover_letter_tailored = false ∧
        resp.resume_reason = some ("Match score " ++ toString ev.match_score
          ++ "% ≤ 70 threshold") ∧
        resp.cover_letter_reason = some ("Match score "
          ++ toString ev.match_score ++ "% ≤ 70 threshold")) ∧
    (ev.match_score > 70 →
      Event.callTailorResume ∈ (process_job_pipeline env).1 ∧
      Event.callTailorCoverLetter ∈ (process_job_pipeline env).1) := by
  have htr := pipeline_success_trace env j ev n hdup hext hEv hN
  have hsh := pipeline_success_shape env j ev n hdup hext hEv hN
  constructor
  · intro hle
    have hS : ¬ ev.match_score > 70 := by omega
    constructor
    · refine ⟨?_, ?_, ?_, ?_, ?_, ?_⟩ <;>
      · intro hmem
        rw [htr] at hmem
        simp [hS, List.mem_append] at hmem
        exact not_mem_extract_trace env.extract env.force_playwright _
          (by decide) (by decide) (by decide) (by decide) hmem
    · rw [hsh]
      simp only [hS, if_false]
      exact ⟨_, rfl, by simp [buildResponse], by simp [buildResponse],
        by simp [buildResponse], by simp [buildResponse]⟩
  · intro hgt
    rw [htr]
    simp [hgt, List.mem_append, callTailorResume_mem_resumeStage env,
      callTailorCL_mem_coverLetterStage env]

/-- C5: with `match_score > 70`, a failure in resume tailoring, resume PDF
compilation or resume upload is absorbed at its stage boundary (output
downgraded to absent), cover-letter processing is still attempted,
persistence still executes, and the task ends SUCCESS with status
`"success"`; a cover-letter-stage failure likewise never prevents
persistence. -/
theorem stage_fault_isolation (env : PipeEnv) (j : Job) (ev : Evaluation)
    (n : NotionResult)
    (hdup : (check_if_job_exists env.dup).exists_ = false)
    (hext : (extract_job_data env.extract env.force_playwright).2 = .ok j)
    (hEv : env.evaluate = .ok ev)
    (hN : env.saveNotion = .ok n)
    (hscore : ev.match_score > 70) :
    (Event.callTailorCoverLetter ∈ (process_job_pipeline env).1 ∧
     Event.callSaveNotion ∈ (process_job_pipeline env).1 ∧
     ∃ resp, (process_job_task env).2 = .SUCCESS (.success resp) ∧
       (PipeResult.success resp).status = "success") ∧
    (∀ er, env.tailorResume = .error er →
      ∃ resp, (process_job_pipeline env).2 = .ok (.success resp) ∧
        resp.resume_tailored = false) ∧
    (∀ d, env.tailorResume = .ok d →
      ((∃ e2, env.compileResumePdf = .error e2) ∨
       (∃ e2, env.uploadResumePdf = .error e2)) →
      ∃ resp, (process_job_pipeline env).2 = .ok (.success resp) ∧
        resp.resume_tailored = true ∧ resp.resume_pdf_generated = false) ∧
    (∀ ec, env.tailorCoverLetter = .error ec →
      ∃ resp, (process_job_pipeline env).2 = .ok (.success resp) ∧
        resp.cover_letter_tailored = false) := by
  have htr := pipeline_success_trace env j ev n hdup hext hEv hN
  have hsh := pipeline_success_shape env j ev n hdup hext hEv hN
  refine ⟨⟨?_, ?_, ?_⟩, ?_, ?_, ?_⟩
  · rw [htr]
    simp [hscore, List.mem_append, callTailorCL_mem_coverLetterStage env]
  · rw [htr]
    simp [List.mem_append]
  · rcases hP : process_job_pipeline env with ⟨ptr, pres⟩
    rw [hP] at hsh
    simp only at hsh
    subst hsh
    refine ⟨buildResponse j ev
      (if ev.match_score > 70 then (resumeStage env).2.1 else none)
      (if ev.match_score > 70 then (resumeStage env).2.2 else none)
      (if ev.match_score > 70 then (coverLetterStage env).2.1 else none)
      (if ev.match_score > 70 then (coverLetterStage env).2.2 else none) n,
      ?_, rfl⟩
    simp [process_job_task, hP]
  · intro er her
    rw [hsh]
    have hd := resumeStage_data env
    rw [her] at hd
    refine ⟨_, rfl, ?_⟩
    rcases hcd : (coverLetterStage env).2.1 with _ | cdoc <;>
      simp [hscore, hd, hcd, Except.toOption, buildResponse]
  · intro d hd2 hfail
    rw [hsh]
    have hd := resumeStage_data env
    rw [hd2] at hd
    have hu := resumeStage_url_none env hfail
    refine ⟨_, rfl, ?_, ?_⟩ <;>
      rcases hcd : (coverLetterStage env).2.1 with _ | cdoc <;>
        simp [hscore, hd, hu, hcd, Except.toOption, buildResponse]
  · intro ec hec
    rw [hsh]
    have hd := coverLetterStage_data env
    rw [hec] at hd
    refine ⟨_, rfl, ?_⟩
    rcases hrd : (resumeStage env).2.1 with _ | rdoc <;>
      simp [hscore, hd, hrd, Except.toOption, buildResponse]

/-- C10: with `match_score > 70`, whenever a tailoring stage failed (its
data is absent) the success response's absence-reason field still reads
`"Match score {score}% ≤ 70 threshold"` with the actual above-threshold
score — the reason always cites the threshold, never the stage failure. -/
theorem absence_reason_cites_threshold (env : PipeEnv) (j : Job)
    (ev : Evaluation) (n : NotionResult)
    (hdup : (check_if_job_exists env.dup).exists_ = false)
    (hext : (extract_job_data env.extract env.force_playwright).2 = .ok j)
    (hEv : env.evaluate = .ok ev)
    (hN : env.saveNotion = .ok n)
    (hscore : ev.match_score > 70) :
    (∀ er, env.tailorResume = .error er →
      ∃ resp, (process_job_pipeline env).2 = .ok (.success resp) ∧
        resp.resume_reason = some ("Match score " ++ toString ev.match_score
          ++ "% ≤ 70 threshold")) ∧
    (∀ ec, env.tailorCoverLetter = .error ec →
      ∃ resp, (process_job_pipeline env).2 = .ok (.success resp) ∧
        resp.cover_letter_reason = some ("Match score "
          ++ toString ev.match_score ++ "% ≤ 70 threshold")) := by
  have hsh := pipeline_success_shape env j ev n hdup hext hEv hN
  constructor
  · intro er her
    rw [hsh]
    have hd := resumeStage_data env
    rw [her] at hd
    refine ⟨_, rfl, ?_⟩
    rcases hcd : (coverLetterStage env).2.1 with _ | cdoc <;>
      simp [hscore, hd, hcd, Except.toOption, buildResponse]
  · intro ec hec
    rw [hsh]
    have hd := coverLetterStage_data env
    rw [hec] at hd
    refine ⟨_, rfl, ?_⟩
    rcases hrd : (resumeStage env).2.1 with _ | rdoc <;>
      simp [hscore, hd, hrd, Except.toOption, buildResponse]

/-- The record the fast path returns for `sampleJob`. -/
def jobFast : Job := { sampleJob with extraction_method := some "crawl4ai" }

/-- C4 witness environment: fast path succeeds, score 50. -/
def envC4 : PipeEnv :=
  { envC1 with
    extract := { fast := .ok sampleJob, slow := slowOk },
    evaluate := .ok ⟨50⟩ }

/-- C4 witness: at score 50 the resume-tailoring collaborator is never
called and the response marks the resume skipped with the threshold
reason. -/
theorem tailoring_gate_witness :
    Event.callTailorResume ∉ (process_job_pipeline envC4).1 ∧
    ∃ resp, (process_job_pipeline envC4).2 = .ok (.success resp) ∧
      resp.resume_tailored = false ∧
      resp.resume_reason = some "Match score 50% ≤ 70 threshold" := by
  have h := tailoring_gate envC4 jobFast ⟨50⟩ ⟨"page-1"⟩ (by decide)
    (by decide) rfl rfl
  have h1 := h.1 (by decide)
  rcases h1.2 with ⟨resp, hr, hrt, hclt, hrr, hcr⟩
  exact ⟨h1.1.1, resp, hr, hrt, hrr⟩

/-- C5/C10 witness environment: fast path succeeds, score 85, resume
tailoring raises. -/
def envC5 : PipeEnv :=
  { envC1 with
    extract := { fast := .ok sampleJob, slow := slowOk },
    tailorResume := .error ⟨"Exception", "LLM failure"⟩ }

/-- C5 witness: with resume tailoring raising at score 85, the cover letter
is still attempted, persistence executes, and the run succeeds with the
resume downgraded to absent. -/
theorem stage_fault_isolation_witness :
    Event.callTailorCoverLetter ∈ (process_job_pipeline envC5).1 ∧
    Event.callSaveNotion ∈ (process_job_pipeline envC5).1 ∧
    ∃ resp, (process_job_pipeline envC5).2 = .ok (.success resp) ∧
      resp.resume_tailored = false := by
  have h := stage_fault_isolation envC5 jobFast ⟨85⟩ ⟨"page-1"⟩ (by decide)
    (by decide) rfl rfl (by decide)
  rcases h.2.1 _ rfl with ⟨resp, hr, hrt⟩
  exact ⟨h.1.1, h.1.2.1, resp, hr, hrt⟩

/-- C10 witness: the absence reason after a stage-local failure at score 85
still reads "Match score 85% ≤ 70 threshold". -/
theorem absence_reason_cites_threshold_witness :
    ∃ resp, (process_job_pipeline envC5).2 = .ok (.success resp) ∧
      resp.resume_reason = some "Match score 85% ≤ 70 threshold" := by
  have h := absence_reason_cites_threshold envC5 jobFast ⟨85⟩ ⟨"page-1"⟩
    (by decide) (by decide) rfl rfl (by decide)
  rcases h.1 _ rfl with ⟨resp, hr, hrr⟩
  exact ⟨resp, hr, hrr⟩

/-- When the duplicate check finds nothing, the pipeline trace begins with
the duplicate-check and extracting boundaries followed by the extraction
trace. -/
lemma pipeline_trace_decomp (env : PipeEnv)
    (hdup : (check_if_job_exists env.dup).exists_ = false) :
    ∃ rest, (process_job_pipeline env).1 =
      [.update "duplicate_check" 10, .callCheckDuplicate,
       .update "extracting" 20]
      ++ (extract_job_data env.extract env.force_playwright).1 ++ rest := by
  rcases hE : extract_job_data env.extract env.force_playwright with ⟨extTr, extRes⟩
  rcases extRes with err | j
  · rcases err with r | r | e <;>
      exact ⟨[], by simp [process_job_pipeline, hdup, hE]⟩
  · rcases hEv : env.evaluate with eEv | ev
    · exact ⟨[.update "evaluating" 35, .callEvaluate],
        by simp [process_job_pipeline, hdup, hE, hEv]⟩
    · by_cases hS : ev.match_score > 70
      · rcases hR : resumeStage env with ⟨rTr, rD, rU⟩
        rcases hC : coverLetterStage env with ⟨cTr, cD, cU⟩
        rcases hN : env.saveNotion with eN | n
        · exact ⟨[.update "evaluating" 35, .callEvaluate] ++ (rTr ++ cTr) ++
            [.update "saving_to_notion" 85, .callSaveNotion],
            by simp [process_job_pipeline, hdup, hE, hEv, hS, hR, hC, hN]⟩
        · exact ⟨[.update "evaluating" 35, .callEvaluate] ++ (rTr ++ cTr) ++
            [.update "saving_to_notion" 85, .callSaveNotion,
             .update "complete" 100],
            by simp [process_job_pipeline, hdup, hE, hEv, hS, hR, hC, hN]⟩
      · rcases hN : env.saveNotion with eN | n
        · exact ⟨[.update "evaluating" 35, .callEvaluate,
            .update "saving_to_notion" 85, .callSaveNotion],
            by simp [process_job_pipeline, hdup, hE, hEv, hS, hN]⟩
        · exact ⟨[.update "evaluating" 35, .callEvaluate,
            .update "saving_to_notion" 85, .callSaveNotion,
            .update "complete" 100],
            by simp [process_job_pipeline, hdup, hE, hEv, hS, hN]⟩

/-- The extraction coordinator always invokes the fast engine or the
fallback. -/
lemma extraction_attempted (env : ExtractEnv) (force : Bool) :
    Event.callFast ∈ (extract_job_data env force).1 ∨
    Event.callFallback ∈ (extract_job_data env force).1 := by
  by_cases hf : force = true
  · right
    have h := callFallback_mem_playwright_path env.slow
    rw [extract_job_data]
    simp only [hf, if_true]
    exact h
  · left
    rcases h : env.fast with e | raw
    · rcases e with r | r | e
      · simp [extract_job_data, hf, h]
      · simp [extract_job_data, hf, h]
      · by_cases hs : should_attempt_fallback e = true
        · rcases hp : playwright_path env.slow with ⟨tr, res⟩
          have hext : (extract_job_data env force).1 = Event.callFast :: tr := by
            rw [extract_job_data]; simp [hf, h, hs, hp]
          rw [hext]; exact List.mem_cons_self _ _
        · simp [extract_job_data, hf, h, hs]
    · by_cases hv : (raw.job_title = "" || raw.job_description = "") = true
      · by_cases hs : should_attempt_fallback
            ⟨"Exception", "Incomplete extraction - missing critical fields"⟩ = true
        · rcases hp : playwright_path env.slow with ⟨tr, res⟩
          have hext : (extract_job_data env force).1 = Event.callFast :: tr := by
            rw [extract_job_data]; simp [hf, h, hv, hs, hp]
          rw [hext]; exact List.mem_cons_self _ _
        · simp [extract_job_data, hf, h, hv, hs]
      · simp [extract_job_data, hf, h, hv]

/-- C6: every lookup failure inside the duplicate check — missing
credentials, a transport error, any unexpected exception, or a non-200
response — yields `exists=false` instead of raising, and the pipeline still
proceeds to extraction. -/
theorem duplicate_check_fail_open (env : PipeEnv)
    (hfail : env.dup.hasCredentials = false ∨
      (∃ msg, env.dup.lookup = .requestError msg) ∨
      (∃ msg, env.dup.lookup = .unexpectedError msg) ∨
      (∃ s res b, env.dup.lookup = .response s res b ∧ s ≠ 200)) :
    (check_if_job_exists env.dup).exists_ = false ∧
    Event.update "extracting" 20 ∈ (process_job_pipeline env).1 ∧
    (Event.callFast ∈ (process_job_pipeline env).1 ∨
     Event.callFallback ∈ (process_job_pipeline env).1) := by
  have hdup : (check_if_job_exists env.dup).exists_ = false := by
    rcases hfail with hc | ⟨msg, hl⟩ | ⟨msg, hl⟩ | ⟨s, res, b, hl, hne⟩
    · simp [check_if_job_exists, hc]
    · by_cases hc : env.dup.hasCredentials <;>
        simp [check_if_job_exists, hc, hl]
    · by_cases hc : env.dup.hasCredentials <;>
        simp [check_if_job_exists, hc, hl]
    · by_cases hc : env.dup.hasCredentials
      · have hbeq : (s == 200) = false := by
          simp [Nat.beq_eq_true_eq]
          exact hne
        simp [check_if_job_exists, hc, hl, hbeq]
      · simp [check_if_job_exists, hc]
  rcases pipeline_trace_decomp env hdup with ⟨rest, htr⟩
  refine ⟨hdup, ?_, ?_⟩
  · rw [htr]; simp
  · rcases extraction_attempted env.extract env.force_playwright with h | h
    · left; rw [htr]; simp [h]
    · right; rw [htr]; simp [h]

/-- C6 witness environment: the Notion lookup answers HTTP 500. -/
def envC6 : PipeEnv :=
  { envC1 with
    dup := { hasCredentials := true,
             lookup := .response 500 [] "internal server error" },
    extract := { fast := .ok sampleJob, slow := slowOk } }

/-- C6 witness: a 500 lookup response is treated as not-a-duplicate and the
fast extraction engine is still invoked. -/
theorem duplicate_check_fail_open_witness :
    (check_if_job_exists envC6.dup).exists_ = false ∧
    Event.update "extracting" 20 ∈ (process_job_pipeline envC6).1 ∧
    (Event.callFast ∈ (process_job_pipeline envC6).1 ∨
     Event.callFallback ∈ (process_job_pipeline envC6).1) :=
  duplicate_check_fail_open envC6
    (Or.inr (Or.inr (Or.inr ⟨500, [], "internal server error",
      rfl, by decide⟩)))

@[simp] lemma updatesOf_cons_callCheckDuplicate (tr : List Event) :
    updatesOf (Event.callCheckDuplicate :: tr) = updatesOf tr := rfl

@[simp] lemma updatesOf_cons_callEvaluate (tr : List Event) :
    updatesOf (Event.callEvaluate :: tr) = updatesOf tr := rfl

@[simp] lemma updatesOf_cons_callTailorResume (tr : List Event) :
    updatesOf (Event.callTailorResume :: tr) = updatesOf tr := rfl

@[simp] lemma updatesOf_cons_callCompileResumePdf (tr : List Event) :
    updatesOf (Event.callCompileResumePdf :: tr) = updatesOf tr := rfl

@[simp] lemma updatesOf_cons_callUploadResumePdf (tr : List Event) :
    updatesOf (Event.callUploadResumePdf :: tr) = updatesOf tr := rfl

@[simp] lemma updatesOf_cons_callTailorCoverLetter (tr : List Event) :
    updatesOf (Event.callTailorCoverLetter :: tr) = updatesOf tr := rfl

@[simp] lemma updatesOf_cons_callCompileCoverLetterPdf (tr : List Event) :
    updatesOf (Event.callCompileCoverLetterPdf :: tr) = updatesOf tr := rfl

@[simp] lemma updatesOf_cons_callUploadCoverLetterPdf (tr : List Event) :
    updatesOf (Event.callUploadCoverLetterPdf :: tr) = updatesOf tr := rfl

@[simp] lemma updatesOf_cons_callSaveNotion (tr : List Event) :
    updatesOf (Event.callSaveNotion :: tr) = updatesOf tr := rfl

/-- The resume stage's reported boundaries. -/
lemma resumeStage_updates (env : PipeEnv) :
    updatesOf (resumeStage env).1 = [("tailoring_resume", 45)] ∨
    updatesOf (resumeStage env).1 =
      [("tailoring_resume", 45), ("compiling_resume_pdf", 55)] := by
  rcases h1 : env.tailorResume with e | d
  · left; simp [resumeStage, h1]
  · rcases h2 : env.compileResumePdf with e | b
    · right; simp [resumeStage, h1, h2]
    · rcases h3 : env.uploadResumePdf with e | u <;>
        (right; simp [resumeStage, h1, h2, h3])

/-- The cover-letter stage's reported boundaries. -/
lemma coverLetterStage_updates (env : PipeEnv) :
    updatesOf (coverLetterStage env).1 = [("tailoring_cover_letter", 65)] ∨
    updatesOf (coverLetterStage env).1 =
      [("tailoring_cover_letter", 65), ("compiling_cover_letter_pdf", 75)] := by
  rcases h1 : env.tailorCoverLetter with e | d
  · left; simp [coverLetterStage, h1]
  · rcases h2 : env.compileCoverLetterPdf with e | b
    · right; simp [coverLetterStage, h1, h2]
    · rcases h3 : env.uploadCoverLetterPdf with e | u <;>
        (right; simp [coverLetterStage, h1, h2, h3])

/-- The exhaustive list of (stage, progress) sequences one pipeline run can
report. -/
def possibleUpdateLists : List (List (String × Nat)) :=
  [[("duplicate_check", 10)],
   [("duplicate_check", 10), ("extracting", 20)],
   [("duplicate_check", 10), ("extracting", 20), ("evaluating", 35)],
   [("duplicate_check", 10), ("extracting", 20), ("evaluating", 35),
    ("saving_to_notion", 85)],
   [("duplicate_check", 10), ("extracting", 20), ("evaluating", 35),
    ("saving_to_notion", 85), ("complete", 100)],
   [("duplicate_check", 10), ("extracting", 20), ("evaluating", 35),
    ("tailoring_resume", 45), ("tailoring_cover_letter", 65),
    ("saving_to_notion", 85)],
   [("duplicate_check", 10), ("extracting", 20), ("evaluating", 35),
    ("tailoring_resume", 45), ("tailoring_cover_letter", 65),
    ("saving_to_notion", 85), ("complete", 100)],
   [("duplicate_check", 10), ("extracting", 20), ("evaluating", 35),
    ("tailoring_resume", 45), ("tailoring_cover_letter", 65),
    ("compiling_cover_letter_pdf", 75), ("saving_to_notion", 85)],
   [("duplicate_check", 10), ("extracting", 20), ("evaluating", 35),
    ("tailoring_resume", 45), ("tailoring_cover_letter", 65),
    ("compiling_cover_letter_pdf", 75), ("saving_to_notion", 85),
    ("complete", 100)],
   [("duplicate_check", 10), ("extracting", 20), ("evaluating", 35),
    ("tailoring_resume", 45), ("compiling_resume_pdf", 55),
    ("tailoring_cover_letter", 65), ("saving_to_notion", 85)],
   [("duplicate_check", 10), ("extracting", 20), ("evaluating", 35),
    ("tailoring_resume", 45), ("compiling_resume_pdf", 55),
    ("tailoring_cover_letter", 65), ("saving_to_notion", 85),
    ("complete", 100)],
   [("duplicate_check", 10), ("extracting", 20), ("evaluating", 35),
    ("tailoring_resume", 45), ("compiling_resume_pdf", 55),
    ("tailoring_cover_letter", 65), ("compiling_cover_letter_pdf", 75),
    ("saving_to_notion", 85)],
   [("duplicate_check", 10), ("extracting", 20), ("evaluating", 35),
    ("tailoring_resume", 45), ("compiling_resume_pdf", 55),
    ("tailoring_cover_letter", 65), ("compiling_cover_letter_pdf", 75),
    ("saving_to_notion", 85), ("complete", 100)]]

/-- Every pipeline run reports one of the enumerated boundary sequences. -/
lemma pipeline_updates_mem (env : PipeEnv) :
    updatesOf (process_job_pipeline env).1 ∈ possibleUpdateLists := by
  by_cases hdup : (check_if_job_exists env.dup).exists_ = true
  · simp only [process_job_pipeline, hdup, if_true]
    decide
  · replace hdup : (check_if_job_exists env.dup).exists_ = false := by
      simpa using hdup
    rcases hE : extract_job_data env.extract env.force_playwright with ⟨extTr, extRes⟩
    have hExtU : updatesOf extTr = [] := by
      have h := updatesOf_extract_job_data env.extract env.force_playwright
      rw [hE] at h; exact h
    rcases extRes with err | j
    · rcases err with r | r | e <;>
        (simp only [process_job_pipeline, hdup, hE, Bool.false_eq_true,
          if_false, updatesOf_append, updatesOf_cons_update,
          updatesOf_cons_callCheckDuplicate, updatesOf_nil, hExtU];
         decide)
    · rcases hEv : env.evaluate with eEv | ev
      · simp [process_job_pipeline, hdup, hE, hEv, hExtU]
        decide
      · by_cases hS : ev.match_score > 70
        · rcases hR : resumeStage env with ⟨rTr, rD, rU⟩
          rcases hC : coverLetterStage env with ⟨cTr, cD, cU⟩
          have hRu := resumeStage_updates env
          have hCu := coverLetterStage_updates env
          rw [hR] at hRu
          rw [hC] at hCu
          rcases hN : env.saveNotion with eN | n <;>
            rcases hRu with hRu | hRu <;> rcases hCu with hCu | hCu <;>
            · simp [process_job_pipeline, hdup, hE, hEv, hS, hR, hC, hN,
                hExtU, hRu, hCu]
              decide
        · rcases hN : env.saveNotion with eN | n <;>
            · simp [process_job_pipeline, hdup, hE, hEv, hS, hN, hExtU]
              decide

/-- C7 witness environment: a fully successful high-score run. -/
def envFull : PipeEnv :=
  { envC1 with extract := { fast := .ok sampleJob, slow := slowOk } }

/-- C7: on every execution path the reported progress values are
monotonically non-decreasing (including the wrapper's `starting=0`), every
reported boundary is one of the 9 fixed ordered stage boundaries (in
order), and the full successful path reports exactly those 9. -/
theorem progress_monotone_and_stage_boundaries :
    (∀ env : PipeEnv, Nondecreasing (progressOf (process_job_task env).1)) ∧
    (∀ env : PipeEnv,
      List.Sublist (updatesOf (process_job_pipeline env).1) stageBoundaries) ∧
    updatesOf (process_job_pipeline envFull).1 = stageBoundaries := by
  refine ⟨?_, ?_, ?_⟩
  · intro env
    have h := pipeline_updates_mem env
    have htask : progressOf (process_job_task env).1 =
        0 :: progressOf (process_job_pipeline env).1 := by
      rcases hP : process_job_pipeline env with ⟨tr, res⟩
      rcases res with e | r <;> simp [process_job_task, hP, progressOf]
    rw [htask]
    have hallB : ∀ l ∈ possibleUpdateLists,
        nondecreasingB (0 :: l.map Prod.snd) = true := by decide
    have h2 := (nondecreasingB_iff _).mp (hallB _ h)
    simpa [progressOf] using h2
  · intro env
    have h := pipeline_updates_mem env
    have hall : ∀ l ∈ possibleUpdateLists, List.Sublist l stageBoundaries := by decide
    exact hall _ h
  · decide

/-- C9 (spec-modelled): submission enqueues the request and immediately
returns a task-id acknowledgment that never carries an error; at submission
time the entry is still PENDING (no pipeline work has run), and a later
pipeline failure surfaces only as the polled terminal state after a worker
runs the task — never as an error of the submission call itself. -/
theorem submission_nonblocking_acknowledgment
    (store : List TaskEntry) (url : String) (force : Bool) (env : PipeEnv) :
    (submit_job store url force).2.error = none ∧
    poll_state (submit_job store url force).1
      (submit_job store url force).2.task_id = some .PENDING ∧
    (run_task ⟨(submit_job store url force).2.task_id, url, force,
        .PENDING⟩ env).state =
      (match (process_job_pipeline env).2 with
        | .ok _ => TaskStateTag.SUCCESS
        | .error _ => TaskStateTag.FAILURE) := by
  refine ⟨rfl, ?_, ?_⟩
  · simp [submit_job, poll_state]
  · rcases hP : process_job_pipeline env with ⟨tr, res⟩
    rcases res with e | r <;> simp [run_task, process_job_task, hP]

end JobBot

